import Mathlib

namespace SSafe

/-!
Verification of the S-SAFE risk-assessment pipeline.

Shallow embedding of the scoring, aggregation and knowledge-base code of the
repository (backend/agents, backend/toon, s_safe/tools, s_safe/agents).
Python floats in confidence/salary arithmetic are modelled with exact
rationals; Python strings are Lean `String`s; Python dict access with defaults
(`payload.get(key, default)`) is modelled with `Option` fields plus the same
defaults.
-/

/-! ## String helpers (Python `in`, `lower`, `count`, slicing) -/

/-- Python prefix test on character lists: `charsPrefix pat s` holds when
`pat` is an initial segment of `s`. -/
def charsPrefix : List Char → List Char → Bool
  | [], _ => true
  | _ :: _, [] => false
  | p :: ps, c :: cs => p == c && charsPrefix ps cs

/-- Python substring test `pat in s` on character lists. -/
def charsContains : List Char → List Char → Bool
  | [], pat => pat.isEmpty
  | c :: cs, pat => charsPrefix pat (c :: cs) || charsContains cs pat

/-- Python `sub in s` substring containment on strings. -/
def strContains (s sub : String) : Bool :=
  charsContains s.toList sub.toList

/-- Python `s.lower()` (ASCII case folding, which is all the source uses). -/
def strLower (s : String) : String :=
  String.mk (s.toList.map Char.toLower)

/-- Python `s.count(c)` for a single character. -/
def countChar (s : String) (c : Char) : Nat :=
  (s.toList.filter (fun d => d == c)).length

/-- Python slice `text[a:b]` (indices clamped like Python slicing). -/
def strSlice (s : String) (a b : Nat) : String :=
  String.mk ((s.toList.drop a).take (b - a))

/-! ## Reputation Resolver (`backend/agents/research_agent.py`) -/

/-- `email_verification` sub-result of `OnlineResearchAgent._verify_emails`. -/
structure EmailVerification where
  domain_matches : List String
  suspicious_domains : List String
  personal_emails : List String
  professional_emails : List String
deriving DecidableEq

/-- `company_verification` sub-result of `OnlineResearchAgent._verify_company`. -/
structure CompanyVerification where
  found : Bool
  online_presence : String
  sources : List String
deriving DecidableEq

/-- `scam_reports` sub-result of `OnlineResearchAgent._check_scam_reports`. -/
structure ScamReports where
  found : Bool
deriving DecidableEq

/-- `salary_verification` sub-result of `OnlineResearchAgent._verify_salary`
(only the `realistic` field is read downstream). -/
structure SalaryVerification where
  realistic : String
deriving DecidableEq

/-- `domain_analysis` sub-result of `OnlineResearchAgent._analyze_domains`. -/
structure DomainAnalysis where
  trusted : List String
  suspicious : List String
deriving DecidableEq

/-- The research dict assembled by `OnlineResearchAgent.handle`. -/
structure Research where
  company_verification : CompanyVerification
  email_verification : EmailVerification
  salary_verification : SalaryVerification
  scam_reports : ScamReports
  domain_analysis : DomainAnalysis
  trust_assessment : String
deriving DecidableEq

/-- The integer score accumulated by `OnlineResearchAgent._assess_trust`
(lines 273-312), following the source statement by statement. -/
def assess_trust_score (research : Research) : Int :=
  let s0 : Int := 0
  let company_presence := research.company_verification.online_presence
  let s1 := if company_presence = "strong" then s0 + 3
    else if company_presence = "moderate" then s0 + 1
    else if company_presence = "weak" then s0 - 1
    else s0
  let email_ver := research.email_verification
  let s2 := if email_ver.professional_emails ≠ [] then s1 + 2 else s1
  let s3 := if email_ver.personal_emails ≠ [] then s2 - 1 else s2
  let s4 := if email_ver.domain_matches ≠ [] then s3 + 2 else s3
  let s5 := if research.scam_reports.found then s4 - 5 else s4
  let s6 := if research.domain_analysis.trusted ≠ [] then s5 + 3 else s5
  let s7 := if research.domain_analysis.suspicious ≠ [] then s6 - 2 else s6
  let salary_check := research.salary_verification.realistic
  if salary_check = "realistic" then s7 + 1
  else if salary_check = "suspiciously_low" ∨ salary_check = "suspiciously_high" then s7 - 2
  else s7

/-- The trust level returned by `OnlineResearchAgent._assess_trust`
(lines 313-321). -/
def assess_trust (research : Research) : String :=
  if assess_trust_score research ≥ 5 then "high_trust"
  else if assess_trust_score research ≥ 2 then "moderate_trust"
  else if assess_trust_score research ≥ 0 then "low_trust"
  else "high_risk"

/-- The trust score as the spec sentence for C2 words it: a plain sum of the
fixed weights. Written from the claim text, to be compared with
`assess_trust_score`. -/
def trustScoreSpec (r : Research) : Int :=
  (if r.company_verification.online_presence = "strong" then 3
    else if r.company_verification.online_presence = "moderate" then 1
    else if r.company_verification.online_presence = "weak" then -1 else 0)
  + (if r.email_verification.professional_emails ≠ [] then 2 else 0)
  + (if r.email_verification.personal_emails ≠ [] then -1 else 0)
  + (if r.email_verification.domain_matches ≠ [] then 2 else 0)
  + (if r.scam_reports.found then -5 else 0)
  + (if r.domain_analysis.trusted ≠ [] then 3 else 0)
  + (if r.domain_analysis.suspicious ≠ [] then -2 else 0)
  + (if r.salary_verification.realistic = "realistic" then 1
      else if r.salary_verification.realistic = "suspiciously_low"
        ∨ r.salary_verification.realistic = "suspiciously_high" then -2 else 0)

/-- Research value of the C2 scenario: strong presence, professional emails
and domain matches present, no scam reports, every other signal neutral. -/
def scenarioResearchC2 : Research :=
  ⟨⟨true, "strong", ["s1", "s2"]⟩,
   ⟨["hr@acme.com"], [], [], ["hr@acme.com"]⟩,
   ⟨"unknown"⟩, ⟨false⟩, ⟨[], []⟩, "pending"⟩

/-- The assessment chain of `OnlineResearchAgent._verify_salary`
(lines 183-194) applied to the monthly-equivalent amount. -/
def salary_band (m : ℚ) : String :=
  if m < 5000 then "suspiciously_low"
  else if m > 100000 then "suspiciously_high"
  else if m > 50000 then "verify_required"
  else "realistic"

/-- Salary verification by `OnlineResearchAgent._verify_salary`
(lines 167-201); only the `realistic` classification is modelled, computed on
exact rationals in place of Python floats. -/
def verify_salary (mentioned : Bool) (amount : ℚ) (period : String) : String :=
  if !mentioned then "unknown"
  else salary_band (if period = "month" then amount else amount / 12)

/-! ## Salary tool and agent (`s_safe/tools/salary_tool.py`,
`s_safe/agents/salary_agent.py`) -/

/-- `assess_salary` from `s_safe/tools/salary_tool.py` (lines 26-45), returning
the `risk` field. -/
def assess_salary (value : Int) : String :=
  if value < 300 then "HIGH"
  else if value < 1000 then "MEDIUM"
  else if value > 200000 then "HIGH"
  else "SAFE"

/-- The combined-risk computation of `SalaryInterviewAgent.handle`
(`s_safe/agents/salary_agent.py`, lines 29-34), applied to the salary
assessment risk (absent when `extract_salary` found no value) and the
interview analysis risk returned by the two tool collaborators. -/
def salary_combined_risk (salaryRisk : Option String) (interviewRisk : String) :
    String :=
  if interviewRisk = "HIGH" ∨ salaryRisk = some "HIGH" then "HIGH"
  else if interviewRisk = "MEDIUM" ∨ salaryRisk = some "MEDIUM" then "MEDIUM"
  else "SAFE"

/-! ## Decision Aggregator (`backend/agents/decision_agent.py`) -/

/-- A fee entry produced by `ExtractionAgent._extract_fees`. -/
structure Fee where
  amount : Nat
  context : String
  type : String
deriving DecidableEq

/-- The extraction fields the Decision Aggregator and Knowledge Learner read. -/
structure ExtractionOut where
  red_flags : List String
  fees : List Fee
  behaviors : List String
deriving DecidableEq

/-- Pattern agent output (`PatternMatchingAgent.handle`): matches are
category-to-keywords maps; a category appears only when keywords matched. -/
structure PatternOut where
  scam_matches : List (String × List String)
  positive_matches : List (String × List String)
deriving DecidableEq

/-- Salary agent output field read by the decision agent. -/
structure SalaryOut where
  combined_risk : String
deriving DecidableEq

/-- The payload read by `DecisionAgent.handle`; `none` models a stage result
that is absent from the payload dict (every read in the source goes through
`payload.get(...)`/`dict.get(...)` with the defaults reproduced below). -/
structure DecisionPayload where
  extraction : Option ExtractionOut
  research : Option Research
  pattern_out : Option PatternOut
  salary_out : Option SalaryOut
deriving DecidableEq

/-- The internal risk score of `DecisionAgent.handle`
(`backend/agents/decision_agent.py`, lines 34-84), statement by statement,
including every `.get` default. -/
def decision_risk_score (p : DecisionPayload) : Int :=
  let red_flags := (p.extraction.map ExtractionOut.red_flags).getD []
  let fees_mentioned := ((p.extraction.map ExtractionOut.fees).getD []).length > 0
  let behaviors := (p.extraction.map ExtractionOut.behaviors).getD []
  let trust_level := (p.research.map Research.trust_assessment).getD "unknown"
  let scam_reports := (p.research.map (fun r => r.scam_reports.found)).getD false
  let personal_emails :=
    (p.research.map (fun r => r.email_verification.personal_emails)).getD []
  let has_scam_patterns :=
    ((p.pattern_out.map PatternOut.scam_matches).getD []) ≠ []
  let has_positive_patterns :=
    ((p.pattern_out.map PatternOut.positive_matches).getD []) ≠ []
  let salary_risk := (p.salary_out.map SalaryOut.combined_risk).getD "LOW"
  let s0 : Int := 0
  let s1 := s0 + red_flags.length * 2
  let s2 := s1 + (if fees_mentioned then 5 else 0)
  let s3 := s2 + behaviors.length
  let s4 := if trust_level = "high_risk" then s3 + 10
    else if trust_level = "low_trust" then s3 + 5
    else if trust_level = "high_trust" then s3 - 5
    else s3
  let s5 := if scam_reports then s4 + 8 else s4
  let s6 := if personal_emails ≠ [] then s5 + 3 else s5
  let s7 := if has_scam_patterns then s6 + 5 else s6
  let s8 := if has_positive_patterns then s7 - 3 else s7
  if salary_risk = "HIGH" then s8 + 4
  else if salary_risk = "MEDIUM" then s8 + 2
  else s8

/-- The verdict category of `DecisionAgent.handle` (lines 86-92). -/
def decision_category (p : DecisionPayload) : String :=
  if decision_risk_score p ≥ 10 then "Contains Warning Signs"
  else if decision_risk_score p ≤ 2 then "Looks Safe"
  else "Needs Verification"

/-- The risk score as the spec sentence for C1 words it: a plain sum of
weighted terms over the upstream results. Written from the claim text, to be
compared with `decision_risk_score`. -/
def riskScoreSpec (p : DecisionPayload) : Int :=
  let red_flags := (p.extraction.map ExtractionOut.red_flags).getD []
  let fees := (p.extraction.map ExtractionOut.fees).getD []
  let behaviors := (p.extraction.map ExtractionOut.behaviors).getD []
  let trust := (p.research.map Research.trust_assessment).getD "unknown"
  let scam_found := (p.research.map (fun r => r.scam_reports.found)).getD false
  let personal :=
    (p.research.map (fun r => r.email_verification.personal_emails)).getD []
  let scam_pat := ((p.pattern_out.map PatternOut.scam_matches).getD []) ≠ []
  let pos_pat := ((p.pattern_out.map PatternOut.positive_matches).getD []) ≠ []
  let salary_risk := (p.salary_out.map SalaryOut.combined_risk).getD "LOW"
  2 * (red_flags.length : Int)
  + (if fees ≠ [] then 5 else 0)
  + (behaviors.length : Int)
  + (if trust = "high_risk" then 10
      else if trust = "low_trust" then 5
      else if trust = "high_trust" then -5 else 0)
  + (if scam_found then 8 else 0)
  + (if personal ≠ [] then 3 else 0)
  + (if scam_pat then 5 else 0)
  - (if pos_pat then 3 else 0)
  + (if salary_risk = "HIGH" then 4
      else if salary_risk = "MEDIUM" then 2 else 0)

/-! ## Text Extractor salary (`backend/agents/extraction_agent.py`) -/

/-- Python `int(amount_str.replace(",", ""))` on the digits-and-commas string
captured by the salary/fee regex: commas removed, decimal value of the
remaining digit string. -/
def parse_amount (s : String) : Nat :=
  (s.toList.filter (fun c => c ≠ ',')).foldl
    (fun acc c => 10 * acc + (c.toNat - 48)) 0

/-- The salary dict built by `ExtractionAgent._extract_salary`; the
not-mentioned result carries no amount/currency/period. -/
structure SalaryResult where
  mentioned : Bool
  amount : Option Nat
  currency : Option String
  period : Option String
deriving DecidableEq

/-- `ExtractionAgent._extract_salary` (lines 138-164), taking as input the
capture-group list produced by `salary_pattern.findall(text)` in document
order (the regex engine itself is the collaborator here) together with the
text. -/
def extract_salary_from_matches (ms : List String) (text : String) :
    SalaryResult :=
  match ms with
  | [] => ⟨false, none, none, none⟩
  | amount_str :: _ =>
    let amount := parse_amount amount_str
    let currency :=
      if strContains text "$" || strContains text "USD" then "USD" else "INR"
    let period :=
      if strContains (strLower text) "year" || strContains (strLower text) "annum"
        || strContains (strLower text) "pa" then "year" else "month"
    ⟨true, some amount, some currency, some period⟩

/-- The red-flag keyword list of `ExtractionAgent.__init__` (lines 29-37). -/
def red_flag_keywords : List String :=
  ["training fee", "registration fee", "refundable deposit", "security deposit",
   "laptop fee", "equipment fee", "processing fee", "onboarding fee",
   "wire transfer", "western union", "cash app", "crypto payment", "bitcoin",
   "no interview", "immediate hiring", "urgent hiring", "quick earnings",
   "work from home guaranteed", "no experience needed", "earn from home",
   "whatsapp job", "telegram job", "kindly", "dear candidate",
   "congratulations you are selected", "limited slots", "act fast"]

/-- `ExtractionAgent._detect_red_flags` (lines 216-225): every keyword that is
a substring of the lowercased text, in list order. -/
def detect_red_flags (text : String) : List String :=
  red_flag_keywords.filter (fun flag => strContains (strLower text) flag)

/-- `ExtractionAgent._detect_behaviors` (lines 227-254), check by check. -/
def detect_behaviors (text : String) : List String :=
  let text_lower := strLower text
  let d1 : List String :=
    if !strContains text_lower "interview" then ["no interview mentioned"] else []
  let d2 := if strContains text_lower "fee" || strContains text_lower "deposit"
      || strContains text_lower "payment" || strContains text_lower "charge"
    then d1 ++ ["upfront payment required"] else d1
  let d3 := if countChar text '!' > 3 ∨ countChar text '?' > 3
    then d2 ++ ["excessive punctuation"] else d2
  let d4 := if strContains text_lower "kindly"
      || strContains text_lower "dear candidate"
    then d3 ++ ["unprofessional language"] else d3
  let d5 := if strContains text_lower "urgent" || strContains text_lower "immediate"
      || strContains text_lower "limited" || strContains text_lower "act fast"
      || strContains text_lower "hurry"
    then d4 ++ ["pressure to act fast"] else d4
  if text.length < 100 then d5 ++ ["vague job description"] else d5

/-! ### Fee extraction

`ExtractionAgent._extract_fees` iterates the matches of the case-insensitive
regex `(?:fee|deposit|payment|charge|cost)\s*(?:of|:)?\s*(?:₹|Rs\.?|INR|\$)?\s*(\d+(?:,\d{3})*)`
over the text. The matcher below implements exactly this pattern on the
lowercased character list: for this pattern a committed greedy scan agrees
with the backtracking engine, because after each maximal `\s*` run none of
the following alternatives starts with a space, and whenever an optional
piece (`of`/`:`/currency) is present literally, skipping it cannot lead to a
match either (the next required item is a digit or currency symbol, never a
letter of the skipped literal). -/

/-- Python `\s` on ASCII. -/
def isSpaceChar (c : Char) : Bool :=
  c = ' ' || c = '\t' || c = '\n' || c = '\r' || c = '\x0b' || c = '\x0c'

/-- The keyword alternation `(?:fee|deposit|payment|charge|cost)` at the head
of the suffix; returns the matched length. -/
def matchFeeKeyword (s : List Char) : Option Nat :=
  if charsPrefix ("fee".toList) s then some 3
  else if charsPrefix ("deposit".toList) s then some 7
  else if charsPrefix ("payment".toList) s then some 7
  else if charsPrefix ("charge".toList) s then some 6
  else if charsPrefix ("cost".toList) s then some 4
  else none

/-- The optional `(?:of|:)?`. -/
def matchOfColon (s : List Char) : List Char :=
  if charsPrefix ("of".toList) s then s.drop 2
  else if charsPrefix (":".toList) s then s.drop 1
  else s

/-- The optional currency `(?:₹|Rs\.?|INR|\$)?` (lowercased alternatives,
`Rs\.?` greedy on the dot). -/
def matchCurrency (s : List Char) : List Char :=
  if charsPrefix ("₹".toList) s then s.drop 1
  else if charsPrefix ("rs.".toList) s then s.drop 3
  else if charsPrefix ("rs".toList) s then s.drop 2
  else if charsPrefix ("inr".toList) s then s.drop 3
  else if charsPrefix ("$".toList) s then s.drop 1
  else s

/-- The `(?:,\d{3})*` tail of the capture group: returns the consumed
characters and the remaining suffix. -/
def commaGroups : List Char → List Char × List Char
  | ',' :: a :: b :: c :: r =>
    if a.isDigit && b.isDigit && c.isDigit then
      let g := commaGroups r
      (',' :: a :: b :: c :: g.1, g.2)
    else ([], ',' :: a :: b :: c :: r)
  | s => ([], s)

/-- One attempt of the fee regex anchored at the given suffix; returns the
total matched length and the capture group (digits with comma groups). -/
def feeMatchAt (s : List Char) : Option (Nat × String) :=
  match matchFeeKeyword s with
  | none => none
  | some klen =>
    let r1 := (s.drop klen).dropWhile isSpaceChar
    let r2 := matchOfColon r1
    let r3 := r2.dropWhile isSpaceChar
    let r4 := matchCurrency r3
    let r5 := r4.dropWhile isSpaceChar
    let digits := r5.takeWhile Char.isDigit
    if digits.isEmpty then none
    else
      let gp := commaGroups (r5.drop digits.length)
      some (s.length - gp.2.length, String.mk (digits ++ gp.1))

/-- `re.finditer` scan: try each position left to right, resume after each
match; returns (start, end, group) triples in document order. The fuel
argument only bounds the recursion depth; every step consumes at least one
character, so fuel equal to the suffix length (as `feeScan` passes) is never
exhausted. -/
def feeScanAux : Nat → List Char → Nat → List (Nat × Nat × String)
  | 0, _, _ => []
  | _ + 1, [], _ => []
  | fuel + 1, c :: cs, pos =>
    match feeMatchAt (c :: cs) with
    | some g =>
      (pos, pos + g.1, g.2) :: feeScanAux fuel (cs.drop (g.1 - 1)) (pos + g.1)
    | none => feeScanAux fuel cs (pos + 1)

/-- The full finditer scan of the fee regex over a character list. -/
def feeScan (s : List Char) (pos : Nat) : List (Nat × Nat × String) :=
  feeScanAux s.length s pos

/-- `ExtractionAgent._classify_fee` (lines 184-197). -/
def classify_fee (context : String) : String :=
  let context_lower := strLower context
  if strContains context_lower "training" then "training_fee"
  else if strContains context_lower "registration" then "registration_fee"
  else if strContains context_lower "deposit" then "deposit"
  else if strContains context_lower "refund" then "refundable_deposit"
  else "other_fee"

/-- `ExtractionAgent._extract_fees` (lines 166-182): for each regex match, a
30-character window around the match classifies the fee; the stored context
is the stripped window, classification runs on the unstripped window. -/
def extract_fees (text : String) : List Fee :=
  (feeScan (strLower text).toList 0).map (fun t =>
    let fee_context := strSlice text (t.1 - 30) (t.2.1 + 30)
    ⟨parse_amount t.2.2, fee_context.trim, classify_fee fee_context⟩)

/-- The literal text of the C10 scenario. -/
def scenarioText : String :=
  "Pay a refundable deposit of $500 for training. WhatsApp +1234567890 for urgent hiring, no interview needed."

/-! ## Knowledge Base documents (`backend/toon/toon_manager.py`,
`backend/agents/toon_learning_agent.py`)

A pattern document is a parsed JSON object: top-level keys in insertion order
(Python dict semantics: unique keys, assignment keeps position, new keys
append at the end). Values under the schema are JSON arrays of strings;
`JVal.other` stands for any other JSON value. A `none` file stands for a
missing, unreadable or unparseable file (and, for the manager's loader, a
non-object top level). -/

/-- A JSON value stored under a top-level key of a pattern document. -/
inductive JVal where
  | strs (xs : List String)
  | other
deriving DecidableEq

/-- A parsed pattern document. -/
abbrev Document := List (String × JVal)

/-- Lookup of a top-level key (keys are unique in parsed JSON; first
occurrence for safety). -/
def docGet (d : Document) (k : String) : Option JVal :=
  (d.find? (fun q => q.1 == k)).map (fun q => q.2)

/-- Python dict assignment `d[k] = v`: replace in place, else append. -/
def docSet : Document → String → JVal → Document
  | [], k, v => [(k, v)]
  | (k0, v0) :: rest, k, v =>
    if k0 == k then (k, v) :: rest else (k0, v0) :: docSet rest k v

/-- The five-category schema of `toon_manager.SCHEMA` (in order). -/
def schemaKeys : List String :=
  ["legitimate_keywords", "suspicious_keywords", "verified_domains",
   "fake_domains", "behaviors"]

/-- One step of the copy loop of `toon_manager._load_toon`: the loaded value
when the key is present with a list value, else the schema default `[]`. -/
def loadCategory (file : Option Document) (k : String) : JVal :=
  match file with
  | none => JVal.strs []
  | some doc =>
    match docGet doc k with
    | some (JVal.strs xs) => JVal.strs xs
    | _ => JVal.strs []

/-- `toon_manager._load_toon` (lines 21-36): start from `SCHEMA` defaults and
copy each schema key present with a list value; unknown keys are never
copied; a failed read returns the defaults. -/
def load_toon (file : Option Document) : Document :=
  schemaKeys.map (fun k => (k, loadCategory file k))

/-- The per-category result of Knowledge Base load as claim C5 words it:
the stored list when the key holds a list, the empty list when the key is
missing, holds a non-list, or the read failed. Written from the claim text,
to be compared with `load_toon`. -/
def loadSpec (file : Option Document) (k : String) : List String :=
  match file with
  | none => []
  | some doc =>
    match docGet doc k with
    | some (JVal.strs xs) => xs
    | _ => []

/-- Result of `TOONLearningAgent._load_toon`; ok=false models the except
branch. -/
structure LearnerLoad where
  ok : Bool
  scam_patterns : Document
  positive_patterns : Document
deriving DecidableEq

/-- `TOONLearningAgent._load_toon` (lines 51-78): returns the two parsed
documents unchanged on success; if either read fails, an error status with
empty documents (no schema defaulting in either case). -/
def learner_load_toon (scamFile positiveFile : Option Document) :
    LearnerLoad :=
  match scamFile, positiveFile with
  | some s, some p => ⟨true, s, p⟩
  | _, _ => ⟨false, [], []⟩

/-- A learning proposal (`TOONLearningAgent._propose_update` result fields). -/
structure Proposal where
  new_scam_keywords : List String
  new_scam_domains : List String
  new_scam_behaviors : List String
  new_safe_keywords : List String
  new_safe_domains : List String
  confidence : ℚ
  should_apply : Bool
deriving DecidableEq

/-- The append-if-absent loop used by `_apply_update` for each candidate:
`for v in items: if v not in cur: cur.append(v)`. -/
def dedupAppend (cur : List String) : List String → List String
  | [] => cur
  | v :: items => dedupAppend (if v ∈ cur then cur else cur ++ [v]) items

/-- The per-category merge loop of `TOONLearningAgent._apply_update`:
skipped entirely when the candidate list is falsy (empty); otherwise
`setdefault(k, [])` followed by append-if-absent for each candidate. A key
present with a non-list value makes the Python loop raise (`in`/`append` on a
non-list), caught by the surrounding try/except as an error without any file
write; that is the `none` result. -/
def mergeCategory (d : Document) (k : String) (items : List String) :
    Option Document :=
  if items = [] then some d
  else
    match docGet d k with
    | none => some (d ++ [(k, JVal.strs (dedupAppend [] items))])
    | some (JVal.strs xs) => some (docSet d k (JVal.strs (dedupAppend xs items)))
    | some JVal.other => none

/-- `TOONLearningAgent._apply_update` (lines 224-290) as a transition on the
two persisted documents: skipped without change unless `should_apply`; else
load both documents (empty ones when unreadable), merge the three scam
categories then the safe category with duplicate suppression, and persist
both; an exception during merging writes nothing. -/
def apply_update (p : Proposal) (scamFile positiveFile : Option Document) :
    String × Option Document × Option Document :=
  if !p.should_apply then ("skipped", scamFile, positiveFile)
  else
    let loaded := learner_load_toon scamFile positiveFile
    match mergeCategory loaded.scam_patterns "suspicious_keywords"
        p.new_scam_keywords with
    | none => ("error", scamFile, positiveFile)
    | some s1 =>
      match mergeCategory s1 "fake_domains" p.new_scam_domains with
      | none => ("error", scamFile, positiveFile)
      | some s2 =>
        match mergeCategory s2 "behaviors" p.new_scam_behaviors with
        | none => ("error", scamFile, positiveFile)
        | some s3 =>
          match mergeCategory loaded.positive_patterns "verified_domains"
              p.new_safe_domains with
          | none => ("error", scamFile, positiveFile)
          | some q1 => ("success", some s3, some q1)

/-! ## Knowledge Learner proposal (`backend/agents/toon_learning_agent.py`) -/

/-- `TOONLearningAgent._is_likely_scam` (lines 119-127). -/
def is_likely_scam (e : ExtractionOut) (r : Research) : Bool :=
  (decide (e.fees.length > 0) && decide (e.red_flags.length > 2))
  || r.scam_reports.found || (r.trust_assessment == "high_risk")

/-- `TOONLearningAgent._is_likely_safe` (lines 129-134). -/
def is_likely_safe (r : Research) : Bool :=
  (r.trust_assessment == "high_trust"
    || r.trust_assessment == "moderate_trust")
  && (r.company_verification.online_presence == "strong")

/-- `TOONLearningAgent._calculate_confidence` (lines 184-210), statement by
statement on exact rationals in place of Python floats (the `proposals`
parameter of the source is unused by its body). -/
def calculate_confidence (r : Research) : ℚ :=
  let s0 : ℚ := 0
  let company_presence := r.company_verification.online_presence
  let s1 := if company_presence = "strong" then s0 + 3/10
    else if company_presence = "moderate" then s0 + 15/100
    else s0
  let s2 := if r.scam_reports.found then s1 + 4/10 else s1
  let s3 := s2
    + min ((r.company_verification.sources.length : ℚ) * (5/100)) (2/10)
  let s4 := if r.trust_assessment = "high_trust" then s3 + 2/10
    else if r.trust_assessment = "high_risk" then s3 + 3/10
    else s3
  min s4 1

/-- `TOONLearningAgent._has_sufficient_evidence` (lines 212-222): at least
one non-empty candidate list among the four checked ones (new scam behaviors
are not checked). -/
def has_sufficient_evidence (p : Proposal) : Bool :=
  decide (p.new_scam_keywords.length > 0)
  || decide (p.new_scam_domains.length > 0)
  || decide (p.new_safe_keywords.length > 0)
  || decide (p.new_safe_domains.length > 0)

/-- `TOONLearningAgent._propose_update` (lines 80-117) with the current scam
keyword list (read by `_extract_scam_patterns` from the loaded TOON file, `[]`
when the load failed) passed as an argument. -/
def propose_update (e : ExtractionOut) (r : Research)
    (currentScamKeywords : List String) : Proposal :=
  let p1 : Proposal :=
    if is_likely_scam e r then
      ⟨e.red_flags.filter (fun flag => !currentScamKeywords.contains flag),
       r.email_verification.suspicious_domains, e.behaviors, [], [], 0, false⟩
    else if is_likely_safe r then
      ⟨[], [], [], [],
       (r.email_verification.professional_emails.filter
           (fun em => strContains em "@")).map
         (fun em => (em.splitOn "@").getD 1 "")
         ++ r.domain_analysis.trusted,
       0, false⟩
    else ⟨[], [], [], [], [], 0, false⟩
  let conf := calculate_confidence r
  ⟨p1.new_scam_keywords, p1.new_scam_domains, p1.new_scam_behaviors,
   p1.new_safe_keywords, p1.new_safe_domains, conf,
   decide (conf ≥ 7/10) && has_sufficient_evidence p1⟩

/-- The confidence formula as claim C4 words it, capped at 1. Written from
the claim text, to be compared with `calculate_confidence`. -/
def confidenceSpec (r : Research) : ℚ :=
  min ((if r.company_verification.online_presence = "strong" then 3/10
        else if r.company_verification.online_presence = "moderate" then 15/100
        else 0)
    + (if r.scam_reports.found then 4/10 else 0)
    + min ((r.company_verification.sources.length : ℚ) * (5/100)) (2/10)
    + (if r.trust_assessment = "high_trust" then 2/10
        else if r.trust_assessment = "high_risk" then 3/10 else 0)) 1

/-- Research input of the C4 counterexample: no presence, scam reports found,
no sources, high-risk trust: confidence 0.4 + 0.3 = 0.7. -/
def researchCE : Research :=
  ⟨⟨false, "none", []⟩, ⟨[], [], [], []⟩, ⟨"unknown"⟩, ⟨true⟩, ⟨[], []⟩,
   "high_risk"⟩

/-- Extraction input of the C4 counterexample: one red flag already known,
one behavior. -/
def extractionCE : ExtractionOut :=
  ⟨["refundable deposit"], [], ["pressure to act fast"]⟩

/-- Research input of the C4 scenario with confidence 0.65: moderate presence
(0.15), four sources (0.2), high-risk trust (0.3). -/
def researchC65 : Research :=
  ⟨⟨false, "moderate", ["s1", "s2", "s3", "s4"]⟩, ⟨[], [], [], []⟩,
   ⟨"unknown"⟩, ⟨false⟩, ⟨[], []⟩, "high_risk"⟩

/-- Extraction input of the C4 scenario: one fresh red flag. -/
def extractionC65 : ExtractionOut := ⟨["pay to start"], [], []⟩

/-- Proposal used by the C3 witness. -/
def proposalW : Proposal := ⟨["a"], [], [], [], [], 1, true⟩

/-! ## Accumulator-push lemmas

The Python scoring code mutates one accumulator (`score += k` under `if`s).
These lemmas push the accumulator out of each conditional so that the
sequential form can be compared with the spec's sum-of-terms form. -/

theorem addIte (c : Prop) [Decidable c] (x a : Int) :
    (if c then x + a else x) = x + (if c then a else 0) := by
  split_ifs <;> ring

theorem subIte (c : Prop) [Decidable c] (x a : Int) :
    (if c then x - a else x) = x + (if c then -a else 0) := by
  split_ifs <;> ring

theorem addIte2 (a b : Prop) [Decidable a] [Decidable b] (x p q : Int) :
    (if a then x + p else if b then x + q else x)
      = x + (if a then p else if b then q else 0) := by
  split_ifs <;> ring

theorem addSubIte2 (a b : Prop) [Decidable a] [Decidable b] (x p q : Int) :
    (if a then x + p else if b then x - q else x)
      = x + (if a then p else if b then -q else 0) := by
  split_ifs <;> ring

theorem addAddSubIte3 (a b c : Prop) [Decidable a] [Decidable b] [Decidable c]
    (x p q r : Int) :
    (if a then x + p else if b then x + q else if c then x - r else x)
      = x + (if a then p else if b then q else if c then -r else 0) := by
  split_ifs <;> ring

theorem negIteZero (c : Prop) [Decidable c] (a : Int) :
    -(if c then a else 0) = (if c then -a else 0) := by
  split_ifs <;> ring

theorem salary_band_low (m : ℚ) : salary_band m = "suspiciously_low" ↔ m < 5000 := by
  unfold salary_band
  split_ifs <;> simp_all <;> first
    | (intros; linarith)
    | (constructor <;> intros <;> linarith)

theorem salary_band_high (m : ℚ) :
    salary_band m = "suspiciously_high" ↔ m > 100000 := by
  unfold salary_band
  split_ifs <;> simp_all <;> first
    | (intros; linarith)
    | (constructor <;> intros <;> linarith)

theorem salary_band_verify (m : ℚ) :
    salary_band m = "verify_required" ↔ 50000 < m ∧ m ≤ 100000 := by
  unfold salary_band
  split_ifs <;> simp_all <;> first
    | (intros; linarith)
    | (constructor <;> intros <;> linarith)

theorem salary_band_real (m : ℚ) :
    salary_band m = "realistic" ↔ 5000 ≤ m ∧ m ≤ 50000 := by
  unfold salary_band
  split_ifs <;> simp_all <;> first
    | (intros; linarith)
    | (constructor <;> intros <;> linarith)

/-- Claim C2: the trust score is the fixed-weight sum and the trust tier is
determined by the 5/2/0 cutoffs; the scenario (strong presence, professional
emails, domain matches, no scam reports, all else neutral) scores 7 and maps
to high_trust. -/
theorem trust_assessment_formula (r : Research) :
    assess_trust_score r = trustScoreSpec r
    ∧ (assess_trust r = "high_trust" ↔ assess_trust_score r ≥ 5)
    ∧ (assess_trust r = "moderate_trust" ↔
        2 ≤ assess_trust_score r ∧ assess_trust_score r < 5)
    ∧ (assess_trust r = "low_trust" ↔
        0 ≤ assess_trust_score r ∧ assess_trust_score r < 2)
    ∧ (assess_trust r = "high_risk" ↔ assess_trust_score r < 0)
    ∧ assess_trust_score scenarioResearchC2 = 7
    ∧ assess_trust scenarioResearchC2 = "high_trust" := by
  refine ⟨?_, ?_, ?_, ?_, ?_, by decide, by decide⟩
  · unfold assess_trust_score trustScoreSpec
    simp only [addIte, subIte, addSubIte2, addAddSubIte3, zero_add]
    by_cases h1 : r.salary_verification.realistic = "realistic"
    · simp [h1]
    · by_cases h2 : r.salary_verification.realistic = "suspiciously_low"
        ∨ r.salary_verification.realistic = "suspiciously_high"
      · simp [h1, h2]
      · simp [h1, h2]
  · unfold assess_trust
    split_ifs <;> simp_all <;> omega
  · unfold assess_trust
    split_ifs <;> simp_all <;> omega
  · unfold assess_trust
    split_ifs <;> simp_all <;> omega
  · unfold assess_trust
    split_ifs <;> simp_all <;> omega

/-- Claim C7: for a mentioned salary with the extractor's period values, the
monthly equivalent divides by 12 exactly for yearly periods and the
classification follows the 5000/50000/100000 cutoffs; amount 3000 per month is
suspiciously_low. -/
theorem salary_verification_classification (mentioned : Bool) (amount : ℚ)
    (period : String) (hm : mentioned = true)
    (hp : period = "month" ∨ period = "year") :
    ((verify_salary mentioned amount period = "suspiciously_low" ↔
        (if period = "year" then amount / 12 else amount) < 5000)
     ∧ (verify_salary mentioned amount period = "suspiciously_high" ↔
        (if period = "year" then amount / 12 else amount) > 100000)
     ∧ (verify_salary mentioned amount period = "verify_required" ↔
        50000 < (if period = "year" then amount / 12 else amount)
          ∧ (if period = "year" then amount / 12 else amount) ≤ 100000)
     ∧ (verify_salary mentioned amount period = "realistic" ↔
        5000 ≤ (if period = "year" then amount / 12 else amount)
          ∧ (if period = "year" then amount / 12 else amount) ≤ 50000))
    ∧ verify_salary true 3000 "month" = "suspiciously_low" := by
  subst hm
  refine ⟨?_, by decide⟩
  rcases hp with hp | hp <;> subst hp <;> simp [verify_salary] <;>
    exact ⟨salary_band_low _, salary_band_high _, salary_band_verify _,
      salary_band_real _⟩

/-- Witness for C7 at amount 3000, period "month". -/
theorem salary_verification_classification_witness :
    ((true : Bool) = true ∧ ("month" = "month" ∨ "month" = "year"))
    ∧ (verify_salary true 3000 "month" = "suspiciously_low" ↔
        (if "month" = "year" then (3000 : ℚ) / 12 else 3000) < 5000) := by
  refine ⟨⟨rfl, Or.inl rfl⟩, ?_⟩
  exact ((salary_verification_classification true 3000 "month" rfl
    (Or.inl rfl)).1).1

set_option maxHeartbeats 4000000 in
/-- Claim C1: for every combination of upstream results the decision risk
score equals the weighted-sum formula, and the verdict category is determined
by the 10/2 cutoffs. -/
theorem decision_risk_formula (p : DecisionPayload) :
    decision_risk_score p = riskScoreSpec p
    ∧ (decision_category p = "Contains Warning Signs" ↔
        decision_risk_score p ≥ 10)
    ∧ (decision_category p = "Looks Safe" ↔ decision_risk_score p ≤ 2)
    ∧ (decision_category p = "Needs Verification" ↔
        2 < decision_risk_score p ∧ decision_risk_score p < 10) := by
  refine ⟨?_, ?_, ?_, ?_⟩
  · simp only [decision_risk_score, riskScoreSpec, gt_iff_lt, List.length_pos]
    rw [addIte2, subIte, addIte, addIte, addIte, addAddSubIte3,
      sub_eq_add_neg, negIteZero]
    ring
  · unfold decision_category
    split_ifs <;> simp_all <;> omega
  · unfold decision_category
    split_ifs <;> simp_all <;> omega
  · unfold decision_category
    split_ifs <;> simp_all <;> omega

/-- Claim C6: when every upstream stage result is absent or carries no
signal (no red flags, fees or behaviors, trust-neutral reputation with no
scam reports or personal emails, no pattern matches, no HIGH/MEDIUM salary
risk), the aggregator still returns risk score 0 and category Looks Safe. -/
theorem decision_degenerate (p : DecisionPayload)
    (hext : ∀ e, p.extraction = some e →
      e.red_flags = [] ∧ e.fees = [] ∧ e.behaviors = [])
    (hres : ∀ r, p.research = some r →
      r.trust_assessment ≠ "high_risk" ∧ r.trust_assessment ≠ "low_trust"
      ∧ r.trust_assessment ≠ "high_trust" ∧ r.scam_reports.found = false
      ∧ r.email_verification.personal_emails = [])
    (hpat : ∀ q, p.pattern_out = some q →
      q.scam_matches = [] ∧ q.positive_matches = [])
    (hsal : ∀ s, p.salary_out = some s →
      s.combined_risk ≠ "HIGH" ∧ s.combined_risk ≠ "MEDIUM") :
    decision_risk_score p = 0 ∧ decision_category p = "Looks Safe" := by
  have hrf : (p.extraction.map ExtractionOut.red_flags).getD [] = [] := by
    cases hE : p.extraction with
    | none => rfl
    | some e => simp [(hext e hE).1]
  have hfe : (p.extraction.map ExtractionOut.fees).getD [] = [] := by
    cases hE : p.extraction with
    | none => rfl
    | some e => simp [(hext e hE).2.1]
  have hbe : (p.extraction.map ExtractionOut.behaviors).getD [] = [] := by
    cases hE : p.extraction with
    | none => rfl
    | some e => simp [(hext e hE).2.2]
  have htr : (p.research.map Research.trust_assessment).getD "unknown"
      ≠ "high_risk"
      ∧ (p.research.map Research.trust_assessment).getD "unknown" ≠ "low_trust"
      ∧ (p.research.map Research.trust_assessment).getD "unknown"
        ≠ "high_trust" := by
    cases hR : p.research with
    | none => refine ⟨by decide, by decide, by decide⟩
    | some r =>
      simpa using ⟨(hres r hR).1, (hres r hR).2.1, (hres r hR).2.2.1⟩
  have hsc : (p.research.map (fun r => r.scam_reports.found)).getD false
      = false := by
    cases hR : p.research with
    | none => rfl
    | some r => simp [(hres r hR).2.2.2.1]
  have hpe : (p.research.map
      (fun r => r.email_verification.personal_emails)).getD [] = [] := by
    cases hR : p.research with
    | none => rfl
    | some r => simp [(hres r hR).2.2.2.2]
  have hsm : ((p.pattern_out.map PatternOut.scam_matches).getD []) = [] := by
    cases hP : p.pattern_out with
    | none => rfl
    | some q => simp [(hpat q hP).1]
  have hpm : ((p.pattern_out.map PatternOut.positive_matches).getD []) = [] := by
    cases hP : p.pattern_out with
    | none => rfl
    | some q => simp [(hpat q hP).2]
  have hsr : (p.salary_out.map SalaryOut.combined_risk).getD "LOW" ≠ "HIGH"
      ∧ (p.salary_out.map SalaryOut.combined_risk).getD "LOW" ≠ "MEDIUM" := by
    cases hS : p.salary_out with
    | none => refine ⟨by decide, by decide⟩
    | some s => simpa using ⟨(hsal s hS).1, (hsal s hS).2⟩
  have h0 : decision_risk_score p = 0 := by
    simp only [decision_risk_score, hrf, hfe, hbe, htr.1, htr.2.1, htr.2.2,
      hsc, hpe, hsm, hpm, hsr.1, hsr.2]
    norm_num
  refine ⟨h0, ?_⟩
  unfold decision_category
  rw [h0]
  decide

/-- Witness for C6: the fully-absent payload scores 0 and is Looks Safe. -/
theorem decision_degenerate_witness :
    decision_risk_score ⟨none, none, none, none⟩ = 0
    ∧ decision_category ⟨none, none, none, none⟩ = "Looks Safe" :=
  decision_degenerate ⟨none, none, none, none⟩
    (fun e h => by cases h) (fun r h => by cases h)
    (fun q h => by cases h) (fun s h => by cases h)

/-- Counterexample for C8: with interview risk HIGH, the combined risk the
aggregator reads is HIGH (adding 4) even though the Salary Checker alone
classified the amount 5000 as SAFE (which would add 0). -/
theorem salary_risk_not_checker_alone :
    assess_salary 5000 = "SAFE"
    ∧ salary_combined_risk (some (assess_salary 5000)) "HIGH" = "HIGH"
    ∧ decision_risk_score ⟨none, none, none,
        some ⟨salary_combined_risk (some (assess_salary 5000)) "HIGH"⟩⟩ = 4
    ∧ decision_risk_score ⟨none, none, none, some ⟨assess_salary 5000⟩⟩ = 0 := by
  refine ⟨by decide, by decide, by decide, by decide⟩

/-- Claim C8 (amended): the Salary Checker classifies by the 300/1000/200000
cutoffs, the salary agent combines that classification with the interview
analyzer's risk by maximum severity, and the Decision Aggregator adds +4/+2
according to that combined risk. -/
theorem salary_risk_aggregation (value : Int) (sr : Option String)
    (ir : String) (p : DecisionPayload) (sal : SalaryOut)
    (hs : p.salary_out = some sal) :
    ((assess_salary value = "HIGH" ↔ (value < 300 ∨ value > 200000))
     ∧ (assess_salary value = "MEDIUM" ↔ (300 ≤ value ∧ value < 1000))
     ∧ (assess_salary value = "SAFE" ↔ (1000 ≤ value ∧ value ≤ 200000)))
    ∧ (salary_combined_risk sr ir = "HIGH" ↔
        (ir = "HIGH" ∨ sr = some "HIGH"))
    ∧ (salary_combined_risk sr ir = "MEDIUM" ↔
        (¬(ir = "HIGH" ∨ sr = some "HIGH")
          ∧ (ir = "MEDIUM" ∨ sr = some "MEDIUM")))
    ∧ decision_risk_score p
        = decision_risk_score ⟨p.extraction, p.research, p.pattern_out, none⟩
          + (if sal.combined_risk = "HIGH" then 4
              else if sal.combined_risk = "MEDIUM" then 2 else 0) := by
  refine ⟨⟨?_, ?_, ?_⟩, ?_, ?_, ?_⟩
  · unfold assess_salary
    split_ifs <;> simp_all <;> omega
  · unfold assess_salary
    split_ifs <;> simp_all <;> omega
  · unfold assess_salary
    split_ifs <;> simp_all <;> omega
  · unfold salary_combined_risk
    split_ifs <;> simp_all
  · unfold salary_combined_risk
    split_ifs <;> simp_all <;> tauto
  · by_cases hH : sal.combined_risk = "HIGH" <;>
    by_cases hM : sal.combined_risk = "MEDIUM" <;>
      simp [decision_risk_score, hs, hH, hM] <;> ring

/-- Witness for C8 at a payload carrying combined risk HIGH. -/
theorem salary_risk_aggregation_witness :
    ((⟨none, none, none, some ⟨"HIGH"⟩⟩ : DecisionPayload).salary_out
      = some ⟨"HIGH"⟩)
    ∧ decision_risk_score ⟨none, none, none, some ⟨"HIGH"⟩⟩
        = decision_risk_score ⟨none, none, none, none⟩
          + (if ("HIGH" : String) = "HIGH" then 4
              else if ("HIGH" : String) = "MEDIUM" then 2 else 0) :=
  ⟨rfl, (salary_risk_aggregation 5000 none "HIGH"
    ⟨none, none, none, some ⟨"HIGH"⟩⟩ ⟨"HIGH"⟩ rfl).2.2.2⟩

/-- Claim C9: the extractor's salary is built from the first regex match in
document order (later matches are ignored); currency is USD exactly when the
text contains a dollar sign or "USD", else INR; period is "year" exactly when
the lowercased text contains "year", "annum" or "pa", else "month". -/
theorem extraction_salary_first_match (m : String) (rest : List String)
    (text : String) :
    extract_salary_from_matches (m :: rest) text
      = extract_salary_from_matches [m] text
    ∧ (extract_salary_from_matches (m :: rest) text).mentioned = true
    ∧ (extract_salary_from_matches (m :: rest) text).amount
        = some (parse_amount m)
    ∧ ((extract_salary_from_matches (m :: rest) text).currency = some "USD" ↔
        (strContains text "$" || strContains text "USD") = true)
    ∧ ((extract_salary_from_matches (m :: rest) text).currency = some "INR" ↔
        (strContains text "$" || strContains text "USD") = false)
    ∧ ((extract_salary_from_matches (m :: rest) text).period = some "year" ↔
        (strContains (strLower text) "year" || strContains (strLower text) "annum"
          || strContains (strLower text) "pa") = true)
    ∧ ((extract_salary_from_matches (m :: rest) text).period = some "month" ↔
        (strContains (strLower text) "year" || strContains (strLower text) "annum"
          || strContains (strLower text) "pa") = false)
    ∧ extract_salary_from_matches [] text = ⟨false, none, none, none⟩ := by
  cases hc : (strContains text "$" || strContains text "USD") <;>
  cases hp : (strContains (strLower text) "year"
      || strContains (strLower text) "annum"
      || strContains (strLower text) "pa") <;>
  simp [extract_salary_from_matches, hc, hp]

theorem mem_dedupAppend_left (items : List String) (cur : List String)
    (a : String) (ha : a ∈ cur) : a ∈ dedupAppend cur items := by
  induction items generalizing cur with
  | nil => exact ha
  | cons v it ih =>
    unfold dedupAppend
    by_cases hv : v ∈ cur
    · rw [if_pos hv]
      exact ih _ ha
    · rw [if_neg hv]
      exact ih _ (List.mem_append_left _ ha)

theorem mem_dedupAppend (items : List String) (cur : List String) (a : String)
    (ha : a ∈ items) : a ∈ dedupAppend cur items := by
  induction items generalizing cur with
  | nil => cases ha
  | cons v it ih =>
    unfold dedupAppend
    rcases List.mem_cons.mp ha with rfl | hit
    · apply mem_dedupAppend_left
      by_cases hv : a ∈ cur
      · rw [if_pos hv]; exact hv
      · rw [if_neg hv]
        exact List.mem_append_right _ (List.mem_singleton.mpr rfl)
    · exact ih _ hit

theorem dedupAppend_eq_self (cur items : List String)
    (h : ∀ a ∈ items, a ∈ cur) : dedupAppend cur items = cur := by
  induction items with
  | nil => rfl
  | cons v it ih =>
    unfold dedupAppend
    rw [if_pos (h v (List.mem_cons_self v it))]
    exact ih (fun a ha => h a (List.mem_cons_of_mem _ ha))

theorem dedupAppend_nodup (items : List String) (cur : List String)
    (h : cur.Nodup) : (dedupAppend cur items).Nodup := by
  induction items generalizing cur with
  | nil => exact h
  | cons v it ih =>
    unfold dedupAppend
    by_cases hv : v ∈ cur
    · rw [if_pos hv]; exact ih _ h
    · rw [if_neg hv]
      refine ih _ ?_
      simp [List.nodup_append, h, hv]

theorem docGet_nil (k : String) : docGet [] k = none := rfl

theorem docGet_cons (k0 : String) (v0 : JVal) (rest : Document) (k : String) :
    docGet ((k0, v0) :: rest) k
      = if k0 = k then some v0 else docGet rest k := by
  by_cases h : k0 = k <;> simp [docGet, List.find?_cons, h]

theorem docSet_cons (k0 : String) (v0 : JVal) (rest : Document) (k : String)
    (v : JVal) :
    docSet ((k0, v0) :: rest) k v
      = if k0 = k then (k, v) :: rest else (k0, v0) :: docSet rest k v := by
  by_cases h : k0 = k <;> simp [docSet, h]

theorem docGet_docSet_self (d : Document) (k : String) (v : JVal) :
    docGet (docSet d k v) k = some v := by
  induction d with
  | nil =>
    show docGet [(k, v)] k = some v
    rw [docGet_cons, if_pos rfl]
  | cons hd rest ih =>
    obtain ⟨k0, v0⟩ := hd
    rw [docSet_cons]
    by_cases h : k0 = k
    · rw [if_pos h, docGet_cons, if_pos rfl]
    · rw [if_neg h, docGet_cons, if_neg h, ih]

theorem docGet_docSet_ne (d : Document) (k k2 : String) (v : JVal)
    (h : k2 ≠ k) : docGet (docSet d k v) k2 = docGet d k2 := by
  induction d with
  | nil =>
    show docGet [(k, v)] k2 = docGet [] k2
    rw [docGet_cons, if_neg (Ne.symm h)]
  | cons hd rest ih =>
    obtain ⟨k0, v0⟩ := hd
    rw [docSet_cons]
    by_cases h0 : k0 = k
    · subst h0
      rw [if_pos rfl, docGet_cons, docGet_cons, if_neg (Ne.symm h),
        if_neg (Ne.symm h)]
    · rw [if_neg h0, docGet_cons, docGet_cons]
      split_ifs with h2
      · rfl
      · exact ih

theorem docSet_docGet_self (d : Document) (k : String) (v : JVal)
    (h : docGet d k = some v) : docSet d k v = d := by
  induction d with
  | nil => exact absurd h (by rw [docGet_nil]; exact Option.noConfusion)
  | cons hd rest ih =>
    obtain ⟨k0, v0⟩ := hd
    rw [docGet_cons] at h
    by_cases h0 : k0 = k
    · rw [if_pos h0] at h
      obtain rfl := Option.some.inj h
      subst h0
      rw [docSet_cons, if_pos rfl]
    · rw [if_neg h0] at h
      rw [docSet_cons, if_neg h0, ih h]

theorem docGet_append_single (d : Document) (k : String) (v : JVal)
    (h : docGet d k = none) : docGet (d ++ [(k, v)]) k = some v := by
  induction d with
  | nil =>
    show docGet [(k, v)] k = some v
    rw [docGet_cons, if_pos rfl]
  | cons hd rest ih =>
    obtain ⟨k0, v0⟩ := hd
    rw [docGet_cons] at h
    by_cases h0 : k0 = k
    · rw [if_pos h0] at h
      exact absurd h (Option.noConfusion)
    · rw [if_neg h0] at h
      rw [List.cons_append, docGet_cons, if_neg h0]
      exact ih h

theorem docGet_append_ne (d : Document) (k k2 : String) (v : JVal)
    (h : k2 ≠ k) : docGet (d ++ [(k, v)]) k2 = docGet d k2 := by
  induction d with
  | nil =>
    show docGet [(k, v)] k2 = docGet [] k2
    rw [docGet_cons, if_neg (Ne.symm h), docGet_nil]
  | cons hd rest ih =>
    obtain ⟨k0, v0⟩ := hd
    rw [List.cons_append, docGet_cons, docGet_cons]
    split_ifs with h0
    · rfl
    · exact ih

theorem mergeCategory_get_self (d : Document) (k : String)
    (items : List String) (d2 : Document)
    (h : mergeCategory d k items = some d2) (hne : items ≠ []) :
    ∃ xs, docGet d2 k = some (JVal.strs xs) ∧ ∀ a ∈ items, a ∈ xs := by
  unfold mergeCategory at h
  rw [if_neg hne] at h
  rcases hd : docGet d k with _ | v <;> rw [hd] at h
  · obtain rfl := Option.some.inj h
    exact ⟨_, docGet_append_single d k _ hd,
      fun a ha => mem_dedupAppend items [] a ha⟩
  · cases v with
    | strs xs =>
      obtain rfl := Option.some.inj h
      exact ⟨_, docGet_docSet_self d k _,
        fun a ha => mem_dedupAppend items xs a ha⟩
    | other => simp at h

theorem mergeCategory_get_ne (d : Document) (k : String)
    (items : List String) (d2 : Document) (k2 : String)
    (h : mergeCategory d k items = some d2) (hne : k2 ≠ k) :
    docGet d2 k2 = docGet d k2 := by
  unfold mergeCategory at h
  by_cases hi : items = []
  · rw [if_pos hi] at h
    obtain rfl := Option.some.inj h
    rfl
  · rw [if_neg hi] at h
    rcases hd : docGet d k with _ | v <;> rw [hd] at h
    · obtain rfl := Option.some.inj h
      exact docGet_append_ne d k k2 _ hne
    · cases v with
      | strs xs =>
        obtain rfl := Option.some.inj h
        exact docGet_docSet_ne d k k2 _ hne
      | other => simp at h

theorem mergeCategory_stable (d d2 d3 : Document) (k : String)
    (items : List String) (h : mergeCategory d k items = some d2)
    (hg : docGet d3 k = docGet d2 k) :
    mergeCategory d3 k items = some d3 := by
  by_cases hi : items = []
  · unfold mergeCategory
    rw [if_pos hi]
  · obtain ⟨xs, hx, hmem⟩ := mergeCategory_get_self d k items d2 h hi
    unfold mergeCategory
    rw [if_neg hi, hg, hx]
    simp [dedupAppend_eq_self xs items hmem,
      docSet_docGet_self d3 k (JVal.strs xs) (hg.trans hx)]

/-- Claim C3: apply_update is a skipped no-op without should_apply, and with
should_apply it is idempotent on the persisted documents; the per-candidate
merge suppresses duplicates (it preserves duplicate-freeness). -/
theorem apply_update_idem (p : Proposal) (sf pf : Option Document) :
    (p.should_apply = false →
      apply_update p sf pf = ("skipped", sf, pf))
    ∧ (p.should_apply = true →
      apply_update p (apply_update p sf pf).2.1 (apply_update p sf pf).2.2
        = apply_update p sf pf)
    ∧ (∀ cur items, cur.Nodup → (dedupAppend cur items).Nodup) := by
  refine ⟨?_, ?_, fun cur items hnd => dedupAppend_nodup items cur hnd⟩
  · intro h
    simp [apply_update, h]
  · intro h
    rcases h1 : mergeCategory (learner_load_toon sf pf).scam_patterns
        "suspicious_keywords" p.new_scam_keywords with _ | s1
    · have hX : apply_update p sf pf = ("error", sf, pf) := by
        simp [apply_update, h, h1]
      rw [hX]
      simpa using hX
    · rcases h2 : mergeCategory s1 "fake_domains" p.new_scam_domains
          with _ | s2
      · have hX : apply_update p sf pf = ("error", sf, pf) := by
          simp [apply_update, h, h1, h2]
        rw [hX]
        simpa using hX
      · rcases h3 : mergeCategory s2 "behaviors" p.new_scam_behaviors
            with _ | s3
        · have hX : apply_update p sf pf = ("error", sf, pf) := by
            simp [apply_update, h, h1, h2, h3]
          rw [hX]
          simpa using hX
        · rcases h4 : mergeCategory (learner_load_toon sf pf).positive_patterns
              "verified_domains" p.new_safe_domains with _ | q1
          · have hX : apply_update p sf pf = ("error", sf, pf) := by
              simp [apply_update, h, h1, h2, h3, h4]
            rw [hX]
            simpa using hX
          · have hX : apply_update p sf pf = ("success", some s3, some q1) := by
              simp [apply_update, h, h1, h2, h3, h4]
            have g1 : docGet s3 "suspicious_keywords"
                = docGet s1 "suspicious_keywords" :=
              (mergeCategory_get_ne s2 "behaviors" p.new_scam_behaviors s3
                "suspicious_keywords" h3 (by decide)).trans
              (mergeCategory_get_ne s1 "fake_domains" p.new_scam_domains s2
                "suspicious_keywords" h2 (by decide))
            have m1 : mergeCategory s3 "suspicious_keywords"
                p.new_scam_keywords = some s3 :=
              mergeCategory_stable _ s1 s3 _ _ h1 g1
            have g2 : docGet s3 "fake_domains" = docGet s2 "fake_domains" :=
              mergeCategory_get_ne s2 "behaviors" p.new_scam_behaviors s3
                "fake_domains" h3 (by decide)
            have m2 : mergeCategory s3 "fake_domains" p.new_scam_domains
                = some s3 :=
              mergeCategory_stable _ s2 s3 _ _ h2 g2
            have m3 : mergeCategory s3 "behaviors" p.new_scam_behaviors
                = some s3 :=
              mergeCategory_stable _ s3 s3 _ _ h3 rfl
            have m4 : mergeCategory q1 "verified_domains" p.new_safe_domains
                = some q1 :=
              mergeCategory_stable _ q1 q1 _ _ h4 rfl
            rw [hX]
            simp [apply_update, h, learner_load_toon, m1, m2, m3, m4]

/-- Witness for C3: skip on a non-applying proposal, idempotence on an
applying one, and duplicate suppression at a concrete list. -/
theorem apply_update_idem_witness :
    apply_update ⟨[], [], [], [], [], 0, false⟩ none none
      = ("skipped", none, none)
    ∧ apply_update proposalW (apply_update proposalW none none).2.1
        (apply_update proposalW none none).2.2
      = apply_update proposalW none none
    ∧ (dedupAppend ["a"] ["a", "b"]).Nodup :=
  ⟨(apply_update_idem ⟨[], [], [], [], [], 0, false⟩ none none).1 rfl,
   (apply_update_idem proposalW none none).2.1 rfl,
   (apply_update_idem proposalW none none).2.2 ["a"] ["a", "b"] (by decide)⟩

theorem should_apply_eq (e : ExtractionOut) (r : Research)
    (cur : List String) :
    (propose_update e r cur).should_apply
      = (decide (calculate_confidence r ≥ 7/10)
          && has_sufficient_evidence (propose_update e r cur)) := rfl

/-- Counterexample for C4: a proposal whose only candidates are scam
behaviors reaches confidence 0.7 yet gets should_apply = false, because
`_has_sufficient_evidence` never checks `new_scam_behaviors`. -/
theorem propose_update_behaviors_only :
    (propose_update extractionCE researchCE ["refundable deposit"]).confidence
      = 7/10
    ∧ (propose_update extractionCE researchCE
        ["refundable deposit"]).new_scam_behaviors ≠ []
    ∧ (propose_update extractionCE researchCE
        ["refundable deposit"]).should_apply = false
    ∧ ¬((propose_update extractionCE researchCE
          ["refundable deposit"]).should_apply = true ↔
        ((propose_update extractionCE researchCE
            ["refundable deposit"]).confidence ≥ 7/10
          ∧ ((propose_update extractionCE researchCE
              ["refundable deposit"]).new_scam_keywords ≠ []
            ∨ (propose_update extractionCE researchCE
                ["refundable deposit"]).new_scam_domains ≠ []
            ∨ (propose_update extractionCE researchCE
                ["refundable deposit"]).new_scam_behaviors ≠ []
            ∨ (propose_update extractionCE researchCE
                ["refundable deposit"]).new_safe_keywords ≠ []
            ∨ (propose_update extractionCE researchCE
                ["refundable deposit"]).new_safe_domains ≠ []))) := by
  have hconf : (propose_update extractionCE researchCE
      ["refundable deposit"]).confidence = 7/10 := by
    show calculate_confidence researchCE = 7/10
    simp [calculate_confidence, researchCE, min_def]
    try norm_num
  have hbeh : (propose_update extractionCE researchCE
      ["refundable deposit"]).new_scam_behaviors ≠ [] := by decide
  have hse : has_sufficient_evidence (propose_update extractionCE researchCE
      ["refundable deposit"]) = false := by decide
  have hsho : (propose_update extractionCE researchCE
      ["refundable deposit"]).should_apply = false := by
    rw [should_apply_eq, hse, Bool.and_false]
  refine ⟨hconf, hbeh, hsho, ?_⟩
  intro hiff
  have ht := hiff.mpr ⟨hconf.ge, Or.inr (Or.inr (Or.inl hbeh))⟩
  rw [hsho] at ht
  exact Bool.noConfusion ht

/-- Claim C4 (amended): confidence follows the weighted formula capped at 1
(hence lies in [0,1]); should_apply holds exactly when confidence ≥ 0.7 and
one of the four evidence lists checked by the code (scam keywords, scam
domains, safe keywords, safe domains — not scam behaviors) is non-empty; a
proposal with confidence 0.65 and non-empty new scam keywords is not
applied. -/
theorem propose_update_gate (e : ExtractionOut) (r : Research)
    (cur : List String) :
    (propose_update e r cur).confidence = confidenceSpec r
    ∧ 0 ≤ (propose_update e r cur).confidence
    ∧ (propose_update e r cur).confidence ≤ 1
    ∧ ((propose_update e r cur).should_apply = true ↔
        ((propose_update e r cur).confidence ≥ 7/10
          ∧ ((propose_update e r cur).new_scam_keywords ≠ []
            ∨ (propose_update e r cur).new_scam_domains ≠ []
            ∨ (propose_update e r cur).new_safe_keywords ≠ []
            ∨ (propose_update e r cur).new_safe_domains ≠ [])))
    ∧ (propose_update extractionC65 researchC65 []).confidence = 65/100
    ∧ (propose_update extractionC65 researchC65 []).new_scam_keywords ≠ []
    ∧ (propose_update extractionC65 researchC65 []).should_apply = false := by
  have hconf : (propose_update e r cur).confidence = calculate_confidence r :=
    rfl
  have hmin : (0:ℚ) ≤ min
      ((r.company_verification.sources.length : ℚ) * (5/100)) (2/10) :=
    le_min (by positivity) (by norm_num)
  have h65 : (propose_update extractionC65 researchC65 []).confidence
      = 65/100 := by
    show calculate_confidence researchC65 = 65/100
    simp [calculate_confidence, researchC65, min_def]
    try norm_num
  refine ⟨?_, ?_, ?_, ?_, h65, by decide, ?_⟩
  · rw [hconf]
    unfold calculate_confidence confidenceSpec
    by_cases hp1 : r.company_verification.online_presence = "strong" <;>
    by_cases hp2 : r.company_verification.online_presence = "moderate" <;>
    by_cases hb : r.scam_reports.found <;>
    by_cases ht1 : r.trust_assessment = "high_trust" <;>
    by_cases ht2 : r.trust_assessment = "high_risk" <;>
    simp [hp1, hp2, hb, ht1, ht2] <;>
    ring_nf
  · rw [hconf]
    unfold calculate_confidence
    refine le_min ?_ (by norm_num)
    split_ifs <;> linarith
  · rw [hconf]
    unfold calculate_confidence
    exact min_le_right _ _
  · rw [should_apply_eq, hconf]
    simp [has_sufficient_evidence, List.length_pos, and_assoc]
    tauto
  · have hlt : ¬(calculate_confidence researchC65 ≥ 7/10) := by
      have : calculate_confidence researchC65 = 65/100 := h65
      rw [this]
      norm_num
    rw [should_apply_eq]
    simp [hlt]

/-- Counterexample for C5: the Learning Agent's own loader returns the raw
parsed document; on an empty (but readable) document none of the five schema
categories is present. -/
theorem learner_load_raw_document :
    (learner_load_toon (some []) (some [])).ok = true
    ∧ (learner_load_toon (some []) (some [])).scam_patterns = []
    ∧ docGet (learner_load_toon (some []) (some [])).scam_patterns
        "legitimate_keywords" = none
    ∧ docGet (learner_load_toon (some []) (some [])).scam_patterns
        "suspicious_keywords" = none
    ∧ docGet (learner_load_toon (some []) (some [])).scam_patterns
        "verified_domains" = none
    ∧ docGet (learner_load_toon (some []) (some [])).scam_patterns
        "fake_domains" = none
    ∧ docGet (learner_load_toon (some []) (some [])).scam_patterns
        "behaviors" = none :=
  ⟨rfl, rfl, rfl, rfl, rfl, rfl, rfl⟩

theorem loadCategory_eq (file : Option Document) (k : String) :
    loadCategory file k = JVal.strs (loadSpec file k) := by
  cases file with
  | none => rfl
  | some doc =>
    rcases hd : docGet doc k with _ | v
    · simp [loadCategory, loadSpec, hd]
    · cases v <;> simp [loadCategory, loadSpec, hd]

/-- Claim C5 (amended): the Knowledge Base Store's loader returns exactly the
five schema categories in schema order, each holding the stored list when
present as a list and the empty list when missing, non-list or unreadable
(unknown keys ignored); the Learning Agent's own loader instead returns the
raw parsed documents on success and empty documents with an error status on
failure, without schema defaulting. -/
theorem kb_load_schema (file : Option Document) :
    (load_toon file).map Prod.fst = schemaKeys
    ∧ docGet (load_toon file) "legitimate_keywords"
        = some (JVal.strs (loadSpec file "legitimate_keywords"))
    ∧ docGet (load_toon file) "suspicious_keywords"
        = some (JVal.strs (loadSpec file "suspicious_keywords"))
    ∧ docGet (load_toon file) "verified_domains"
        = some (JVal.strs (loadSpec file "verified_domains"))
    ∧ docGet (load_toon file) "fake_domains"
        = some (JVal.strs (loadSpec file "fake_domains"))
    ∧ docGet (load_toon file) "behaviors"
        = some (JVal.strs (loadSpec file "behaviors"))
    ∧ (∀ s q, learner_load_toon (some s) (some q) = ⟨true, s, q⟩)
    ∧ learner_load_toon none none = ⟨false, [], []⟩ := by
  refine ⟨?_, ?_, ?_, ?_, ?_, ?_, fun s q => rfl, rfl⟩ <;>
    simp [load_toon, schemaKeys, docGet_cons, loadCategory_eq]

/-- Claim C10: on the literal scenario text, fee extraction finds exactly one
fee (amount 500) classified as a training fee, the red flags include
"refundable deposit", and "no interview mentioned" is not among the detected
behaviors because the substring "interview" occurs in the text. -/
theorem extraction_scenario_literal :
    extract_fees scenarioText ≠ []
    ∧ (extract_fees scenarioText).map Fee.type = ["training_fee"]
    ∧ (extract_fees scenarioText).map Fee.amount = [500]
    ∧ "refundable deposit" ∈ detect_red_flags scenarioText
    ∧ strContains (strLower scenarioText) "interview" = true
    ∧ "no interview mentioned" ∉ detect_behaviors scenarioText := by
  refine ⟨by decide, by decide, by decide, by decide, by decide, by decide⟩

end SSafe
